import Mathlib

/-!
Verification of the CV-Mindcare sensor core: a shallow embedding of the
channel lifecycle state machine (src/backend/sensors/base.py), the
orchestrator (src/backend/sensors/sensor_manager.py) and the scenario
generator (src/backend/services/simulation_controller.py), with theorems
settling the specification claims about them.

Modeling conventions: Python floats are rationals; wall-clock instants are
naturals; `random.uniform(a, b)` is `a + (b - a) * rand k` for an
environment-supplied draw `rand k` with a fresh index `k` per call site;
`math.sin` and `math.pi` are environment-supplied oracles over the
rationals; a raised exception is an `Except.error`; the orchestrator's
single non-reentrant `threading.Lock` is explicit in the state, and
entering `with self._lock` while the same lock is held is a `deadlock`
outcome.
-/

namespace CVMindcare

/-- Python exceptions relevant to the sensor subsystem. -/
inductive PyExc where
  | sensorUnavailable (msg : String)
  | sensorError (msg : String)
  | valueError (msg : String)
  | typeError (msg : String)
  | other (msg : String)
deriving DecidableEq

/-- `str(e)` for a raised exception. -/
def PyExc.msg : PyExc → String
  | .sensorUnavailable m => m
  | .sensorError m => m
  | .valueError m => m
  | .typeError m => m
  | .other m => m

/-- SensorStatus enum (base.py lines 53-61). -/
inductive SensorStatus where
  | INACTIVE
  | AVAILABLE
  | ACTIVE
  | ERROR
  | UNAVAILABLE
  | MOCK_MODE
deriving DecidableEq

/-- The `.value` string of each SensorStatus member. -/
def SensorStatus.value : SensorStatus → String
  | .INACTIVE => "inactive"
  | .AVAILABLE => "available"
  | .ACTIVE => "active"
  | .ERROR => "error"
  | .UNAVAILABLE => "unavailable"
  | .MOCK_MODE => "mock_mode"

/-- One sensor reading dict.  Keys that the claims depend on are explicit
fields; scenario-generated numeric payloads live in `values` and string
payloads in `labels`.  Constant metadata (e.g. the camera resolution tuple)
and the real-valued `rms_amplitude` (a non-rational power of 10) carry no
information relevant to any claim and are not modeled. -/
structure Reading where
  sensor_type : String
  timestamp : Nat := 0
  mock_mode : Option Bool := none
  simulation_mode : Option Bool := none
  scenario : Option String := none
  values : List (String × ℚ) := []
  labels : List (String × String) := []
deriving DecidableEq

/-- A concrete channel implementation: the outcome of each abstract hook of
BaseSensor for one invocation.  `checkHw` models `check_hardware_available()`
and `initHw` models the hardware-init hook (the `initialize()` method of
base.py); each may report `false` or raise. -/
structure Hooks where
  checkHw : Except PyExc Bool
  initHw : Except PyExc Bool
  capture : Except PyExc Reading
  captureMock : Except PyExc Reading
  cleanup : Except PyExc Bool

/-- Mutable state of a BaseSensor instance. -/
structure Sensor where
  name : String
  sensor_type : String
  status : SensorStatus := .INACTIVE
  error_message : Option String := none
  mock_mode : Bool := false
  start_time : Option Nat := none
deriving DecidableEq

/-- The two `except` arms of BaseSensor.start (base.py 238-262):
SensorUnavailableError falls back to mock mode clearing the error message;
any other exception falls back to mock mode recording the message.  The
nested `try` of the generic arm contains only attribute assignments, which
cannot raise, so its own `except` arm (the only path to ERROR and a `False`
return) is dead code with no reachable image here. -/
def Sensor.startExcept (e : PyExc) (now : Nat) (s : Sensor) : Sensor × Bool :=
  match e with
  | .sensorUnavailable _ =>
      ({ s with status := .MOCK_MODE, mock_mode := true, error_message := none,
                start_time := some now }, true)
  | _ =>
      ({ s with status := .MOCK_MODE, mock_mode := true,
                error_message := some ("Hardware error (using mock mode): " ++ e.msg),
                start_time := some now }, true)

/-- BaseSensor.start (base.py 193-262). -/
def Sensor.start (h : Hooks) (now : Nat) (s : Sensor) : Sensor × Bool :=
  if s.status = .ACTIVE ∨ s.status = .MOCK_MODE then (s, true)
  else if s.mock_mode then
    ({ s with status := .MOCK_MODE, start_time := some now }, true)
  else
    match h.checkHw with
    | .ok false =>
        ({ s with status := .MOCK_MODE, mock_mode := true, start_time := some now }, true)
    | .ok true =>
        match h.initHw with
        | .ok true => ({ s with status := .ACTIVE, start_time := some now }, true)
        | .ok false =>
            ({ s with status := .MOCK_MODE, mock_mode := true, start_time := some now }, true)
        | .error e => Sensor.startExcept e now s
    | .error e => Sensor.startExcept e now s

/-- BaseSensor.stop (base.py 264-290). -/
def Sensor.stop (h : Hooks) (s : Sensor) : Sensor × Bool :=
  if s.status = .INACTIVE then (s, true)
  else
    match h.cleanup with
    | .ok true => ({ s with status := .INACTIVE, start_time := none }, true)
    | .ok false => (s, false)
    | .error e => ({ s with status := .ERROR, error_message := some e.msg }, false)

/-- `f-string` rendering of an optional message (`None` prints as "None"). -/
def optStr : Option String → String
  | none => "None"
  | some s => s

/-- BaseSensor.read (base.py 292-329): the updated sensor together with the
returned reading, or the exception the call raises. -/
def Sensor.read (h : Hooks) (s : Sensor) : Sensor × Except PyExc Reading :=
  if s.status = .INACTIVE then
    (s, .error (.sensorError (s.name ++ " is not active. Call start() first.")))
  else if s.status = .ERROR then
    (s, .error (.sensorError (s.name ++ " is in error state: " ++ optStr s.error_message)))
  else if s.status = .UNAVAILABLE then
    (s, .error (.sensorError (s.name ++ " hardware is unavailable")))
  else if s.status = .MOCK_MODE ∨ s.mock_mode then
    match h.captureMock with
    | .ok d => (s, .ok { d with mock_mode := some true })
    | .error e =>
        ({ s with status := .ERROR, error_message := some e.msg },
         .error (.sensorError ("Failed to read from " ++ s.name ++ ": " ++ e.msg)))
  else
    match h.capture with
    | .ok d => (s, .ok { d with mock_mode := some false })
    | .error e =>
        ({ s with status := .ERROR, error_message := some e.msg },
         .error (.sensorError ("Failed to read from " ++ s.name ++ ": " ++ e.msg)))

/-- The part of the BaseSensor.get_status dict (base.py 331-362) that other
components read. -/
structure SensorStatusReport where
  name : String
  type : String
  status : String
  active : Bool
  mock_mode : Bool
  error_message : Option String
  uptime_seconds : ℚ
deriving DecidableEq

/-- BaseSensor.get_status: note the `status` entry is the lowercase enum
`.value` string. -/
def Sensor.get_status (now : Nat) (s : Sensor) : SensorStatusReport :=
  { name := s.name
    type := s.sensor_type
    status := s.status.value
    active := s.status == SensorStatus.ACTIVE || s.status == SensorStatus.MOCK_MODE
    mock_mode := s.mock_mode || s.status == SensorStatus.MOCK_MODE
    error_message := s.error_message
    uptime_seconds :=
      match s.start_time with
      | some t =>
          if s.status = SensorStatus.ACTIVE ∨ s.status = SensorStatus.MOCK_MODE then
            (now : ℚ) - (t : ℚ)
          else 0
      | none => 0 }

/-- Ambient effects shared by the orchestrator and the scenario generator:
the wall clock, the stream of `random.uniform` draws, the `math.sin` and
`math.pi` oracles, and the concrete hook implementations of the three owned
channels. -/
structure PyEnv where
  now : Nat
  rand : Nat → ℚ
  sinq : ℚ → ℚ
  piq : ℚ
  camera : Hooks
  microphone : Hooks
  air_quality : Hooks

/-- `random.uniform(a, b)` with draw `r`. -/
def pyUniform (a b r : ℚ) : ℚ := a + (b - a) * r

/-- `max(lo, min(hi, x))`. -/
def pyClamp (lo hi x : ℚ) : ℚ := max lo (min hi x)

/-- `round(x, n)` on the rational model of a float (ties are immaterial to
every claim below). -/
def pyRound (n : Nat) (q : ℚ) : ℚ :=
  (⌊q * (10 : ℚ) ^ n + 1 / 2⌋ : ℚ) / (10 : ℚ) ^ n

/-- `max(items, key=lambda x: x[1])[0]`: the first element attaining the
maximum value. -/
def pyArgmax (x : String × ℚ) (xs : List (String × ℚ)) : String :=
  (xs.foldl (fun best y => if y.2 > best.2 then y else best) x).1

/-- SimulationScenario enum (simulation_controller.py 18-24). -/
inductive SimulationScenario where
  | CALM_FLOW
  | HIGH_STRESS
  | DYNAMIC
  | CUSTOM
deriving DecidableEq

def SimulationScenario.value : SimulationScenario → String
  | .CALM_FLOW => "calm"
  | .HIGH_STRESS => "stress"
  | .DYNAMIC => "dynamic"
  | .CUSTOM => "custom"

/-- A Python value held in the Any-typed `custom_params` dict. -/
inductive PyVal where
  | num (q : ℚ)
  | pair (a b : ℚ)
  | str (s : String)
deriving DecidableEq

/-- A short tag naming the Python type of the value, for error messages. -/
def PyVal.msgTag : PyVal → String
  | .num _ => "number"
  | .pair _ _ => "tuple"
  | .str _ => "str"

/-- Tuple unpacking `a, b = v`: raises TypeError on a non-pair. -/
def PyVal.unpair : PyVal → Except PyExc (ℚ × ℚ)
  | .pair a b => .ok (a, b)
  | _ => .error (.typeError "cannot unpack non-sequence")

/-- Use of a value in float arithmetic: raises TypeError on a non-number. -/
def PyVal.asNum : PyVal → Except PyExc ℚ
  | .num q => .ok q
  | _ => .error (.typeError "unsupported operand type")

/-- `float(v)`: numbers pass through; anything non-numeric raises.  (A
numeric string would parse in Python; `PyVal.str` stands for the
non-numeric ones, which is all any claim here needs.) -/
def pyFloat : PyVal → Except PyExc ℚ
  | .num q => .ok q
  | v => .error (.typeError ("float() argument invalid: " ++ v.msgTag))

/-- Truncation toward zero, as `int()` applied to a float: on a rational in
lowest terms this is the t-division of numerator by denominator. -/
def pyTrunc (q : ℚ) : Int := q.num.tdiv (q.den : Int)

/-- `int(v)`. -/
def pyInt : PyVal → Except PyExc Int
  | .num q => .ok (pyTrunc q)
  | v => .error (.typeError ("int() argument invalid: " ++ v.msgTag))

/-- `bool(v)`: Python truthiness, total. -/
def pyBool : PyVal → Bool
  | .num q => q ≠ 0
  | .pair _ _ => true
  | .str s => s ≠ ""

/-- The `custom_params` dict: its five keys, each holding an arbitrary
Python value (defaults from simulation_controller.py 62-68). -/
structure CustomParams where
  greenery_range : PyVal := .pair 0 100
  noise_range : PyVal := .pair 0 100
  emotion_happy : PyVal := .num (1 / 2)
  emotion_neutral : PyVal := .num (3 / 10)
  emotion_sad : PyVal := .num (1 / 5)
deriving DecidableEq

/-- A dict passed to set_custom_parameters: any subset of the recognized
keys may be present.  (`dict.update` with an unrecognized key would add an
entry that nothing ever reads.) -/
structure CustomParamsUpdate where
  greenery_range : Option PyVal := none
  noise_range : Option PyVal := none
  emotion_happy : Option PyVal := none
  emotion_neutral : Option PyVal := none
  emotion_sad : Option PyVal := none
deriving DecidableEq

/-- `self.custom_params.update(params)`. -/
def CustomParams.updateWith (u : CustomParamsUpdate) (p : CustomParams) : CustomParams :=
  { greenery_range := u.greenery_range.getD p.greenery_range
    noise_range := u.noise_range.getD p.noise_range
    emotion_happy := u.emotion_happy.getD p.emotion_happy
    emotion_neutral := u.emotion_neutral.getD p.emotion_neutral
    emotion_sad := u.emotion_sad.getD p.emotion_sad }

/-- Mutable state of a SimulationController (simulation_controller.py 49-74). -/
structure SimulationController where
  active : Bool := false
  current_scenario : SimulationScenario := .CALM_FLOW
  start_time : Option Nat := none
  custom_params : CustomParams := {}
  dynamic_phase : ℚ := 0
  dynamic_state : String := "calm"
deriving DecidableEq

/-- `str.lower()` (scenario names are ASCII). -/
def pyLower (s : String) : String := String.mk (s.data.map Char.toLower)

/-- SimulationController.set_scenario (113-136): raises ValueError on an
unknown name. -/
def SimulationController.set_scenario (scenario : String)
    (c : SimulationController) : Except PyExc SimulationController :=
  let lower := pyLower scenario
  if lower = "calm" then .ok { c with current_scenario := .CALM_FLOW }
  else if lower = "stress" then .ok { c with current_scenario := .HIGH_STRESS }
  else if lower = "dynamic" then .ok { c with current_scenario := .DYNAMIC }
  else if lower = "custom" then .ok { c with current_scenario := .CUSTOM }
  else .error (.valueError ("Invalid scenario: " ++ scenario))

/-- SimulationController.start (76-95): set_scenario inside `try`; a raised
ValueError is caught and yields False with the controller unchanged. -/
def SimulationController.start (scenario : String) (now : Nat)
    (c : SimulationController) : SimulationController × Bool :=
  match c.set_scenario scenario with
  | .ok c2 =>
      ({ c2 with active := true, start_time := some now, dynamic_phase := 0 }, true)
  | .error _ => (c, false)

/-- SimulationController.stop (97-111). -/
def SimulationController.stop (c : SimulationController) : SimulationController × Bool :=
  ({ c with active := false, start_time := none }, true)

/-- SimulationController.set_custom_parameters (138-146): a plain
`dict.update`, with no validation of any kind. -/
def SimulationController.set_custom_parameters (u : CustomParamsUpdate)
    (c : SimulationController) : SimulationController :=
  { c with custom_params := c.custom_params.updateWith u }

/-- SimulationController._update_dynamic_phase (375-390). -/
def SimulationController.update_dynamic_phase (env : PyEnv)
    (c : SimulationController) : SimulationController :=
  match c.start_time with
  | none => c
  | some t0 =>
      let elapsed : ℚ := (env.now : ℚ) - (t0 : ℚ)
      let phase := elapsed / 120 * 2 * env.piq
      let wave := env.sinq phase
      { c with dynamic_phase := phase
               dynamic_state := if wave > 0 then "calm" else "stress" }

/-- SimulationController._get_dynamic_greenery (392-408). -/
def SimulationController.get_dynamic_greenery (env : PyEnv) (k : Nat)
    (c : SimulationController) : ℚ :=
  let wave := env.sinq c.dynamic_phase
  let calm_avg : ℚ := 75
  let stress_avg : ℚ := 25 / 2
  let base_value := stress_avg + (calm_avg - stress_avg) * (wave + 1) / 2
  let variation := pyUniform (-5) 5 (env.rand k)
  pyClamp 0 100 (base_value + variation)

/-- SimulationController._get_dynamic_noise (410-426). -/
def SimulationController.get_dynamic_noise (env : PyEnv) (k : Nat)
    (c : SimulationController) : ℚ :=
  let wave := env.sinq c.dynamic_phase
  let calm_avg : ℚ := 30
  let stress_avg : ℚ := 165 / 2
  let base_value := stress_avg - (stress_avg - calm_avg) * (wave + 1) / 2
  let fluctuation := pyUniform (-3) 3 (env.rand k)
  pyClamp 0 100 (base_value + fluctuation)

/-- The five emotion probabilities, in dict insertion order. -/
structure Emotions where
  happy : ℚ
  neutral : ℚ
  sad : ℚ
  angry : ℚ
  surprised : ℚ
deriving DecidableEq

/-- SimulationController._get_dynamic_emotions (428-450). -/
def SimulationController.get_dynamic_emotions (env : PyEnv) (k : Nat)
    (c : SimulationController) : Emotions :=
  let wave := env.sinq c.dynamic_phase
  let blend := (wave + 1) / 2
  let happy := 1 / 20 + blend * (7 / 10)
  let sad := 3 / 10 - blend * (1 / 4)
  let angry := 2 / 5 - blend * (7 / 20)
  let neutral := 3 / 20 + blend * (1 / 20)
  let surprised := 1 / 10 - blend * (1 / 20)
  { happy := max 0 (happy + pyUniform (-(1 / 20)) (1 / 20) (env.rand k))
    neutral := max 0 (neutral + pyUniform (-(1 / 20)) (1 / 20) (env.rand (k + 1)))
    sad := max 0 (sad + pyUniform (-(1 / 20)) (1 / 20) (env.rand (k + 2)))
    angry := max 0 (angry + pyUniform (-(1 / 20)) (1 / 20) (env.rand (k + 3)))
    surprised := max 0 (surprised + pyUniform (-(1 / 20)) (1 / 20) (env.rand (k + 4))) }

/-- SimulationController._get_greenery_value (320-330): the CUSTOM arm
unpacks the Any-typed `greenery_range`, which raises on a non-pair. -/
def SimulationController.get_greenery_value (env : PyEnv) (k : Nat)
    (c : SimulationController) : Except PyExc ℚ :=
  match c.current_scenario with
  | .CALM_FLOW => .ok (pyUniform 60 90 (env.rand k))
  | .HIGH_STRESS => .ok (pyUniform 5 20 (env.rand k))
  | .DYNAMIC => .ok (c.get_dynamic_greenery env k)
  | .CUSTOM =>
      match c.custom_params.greenery_range.unpair with
      | .ok (a, b) => .ok (pyUniform a b (env.rand k))
      | .error e => .error e

/-- SimulationController._get_noise_value (332-342). -/
def SimulationController.get_noise_value (env : PyEnv) (k : Nat)
    (c : SimulationController) : Except PyExc ℚ :=
  match c.current_scenario with
  | .CALM_FLOW => .ok (pyUniform 20 40 (env.rand k))
  | .HIGH_STRESS => .ok (pyUniform 70 95 (env.rand k))
  | .DYNAMIC => .ok (c.get_dynamic_noise env k)
  | .CUSTOM =>
      match c.custom_params.noise_range.unpair with
      | .ok (a, b) => .ok (pyUniform a b (env.rand k))
      | .error e => .error e

/-- SimulationController._get_emotion_values (344-373): the CUSTOM arm uses
the three Any-typed weights in float arithmetic, which raises on a
non-number. -/
def SimulationController.get_emotion_values (env : PyEnv) (k : Nat)
    (c : SimulationController) : Except PyExc Emotions :=
  match c.current_scenario with
  | .CALM_FLOW =>
      .ok { happy := pyUniform (6 / 10) (9 / 10) (env.rand k)
            neutral := pyUniform (1 / 10) (3 / 10) (env.rand (k + 1))
            sad := pyUniform 0 (1 / 10) (env.rand (k + 2))
            angry := pyUniform 0 (1 / 20) (env.rand (k + 3))
            surprised := pyUniform 0 (1 / 10) (env.rand (k + 4)) }
  | .HIGH_STRESS =>
      .ok { happy := pyUniform 0 (1 / 10) (env.rand k)
            neutral := pyUniform (1 / 10) (1 / 5) (env.rand (k + 1))
            sad := pyUniform (1 / 5) (2 / 5) (env.rand (k + 2))
            angry := pyUniform (3 / 10) (1 / 2) (env.rand (k + 3))
            surprised := pyUniform 0 (1 / 5) (env.rand (k + 4)) }
  | .DYNAMIC => .ok (c.get_dynamic_emotions env k)
  | .CUSTOM =>
      match c.custom_params.emotion_happy.asNum with
      | .error e => .error e
      | .ok h =>
          match c.custom_params.emotion_neutral.asNum with
          | .error e => .error e
          | .ok n =>
              match c.custom_params.emotion_sad.asNum with
              | .error e => .error e
              | .ok s =>
                  .ok { happy := h, neutral := n, sad := s,
                        angry := 1 - (h + n + s), surprised := 0 }

/-- SimulationController.generate_camera_data (231-251); draw indices 0-1. -/
def SimulationController.generate_camera_data (env : PyEnv)
    (c : SimulationController) : Except PyExc Reading :=
  match c.get_greenery_value env 0 with
  | .error e => .error e
  | .ok g =>
      let variation := pyUniform (-2) 2 (env.rand 1)
      let g2 := pyClamp 0 100 (g + variation)
      .ok { sensor_type := "camera"
            timestamp := env.now
            simulation_mode := some true
            scenario := some c.current_scenario.value
            values := [("greenery_percentage", pyRound 2 g2)] }

/-- SimulationController.generate_microphone_data (253-292); draw indices
2-3.  `rms_amplitude = 10 ** (raw_db / 20)` is a non-rational real and is
not modeled (no claim mentions it). -/
def SimulationController.generate_microphone_data (env : PyEnv)
    (c : SimulationController) : Except PyExc Reading :=
  match c.get_noise_value env 2 with
  | .error e => .error e
  | .ok db =>
      let fluctuation := pyUniform (-3) 3 (env.rand 3)
      let db2 := pyClamp 0 100 (db + fluctuation)
      let cls :=
        if db2 < 30 then "Quiet"
        else if db2 < 50 then "Normal"
        else if db2 < 70 then "Moderate"
        else if db2 < 85 then "Noisy"
        else "Very Noisy"
      let db_reference : ℚ := -60
      let raw_db := db_reference + db2 / 100 * |db_reference|
      .ok { sensor_type := "microphone"
            timestamp := env.now
            simulation_mode := some true
            scenario := some c.current_scenario.value
            values := [("db_level", pyRound 2 db2), ("raw_db", pyRound 2 raw_db)]
            labels := [("noise_classification", cls)] }

/-- SimulationController.generate_emotion_data (294-318); draw indices 4-8. -/
def SimulationController.generate_emotion_data (env : PyEnv)
    (c : SimulationController) : Except PyExc Reading :=
  match c.get_emotion_values env 4 with
  | .error e => .error e
  | .ok e0 =>
      let total := e0.happy + e0.neutral + e0.sad + e0.angry + e0.surprised
      let e1 : Emotions :=
        if total > 0 then
          { happy := e0.happy / total, neutral := e0.neutral / total,
            sad := e0.sad / total, angry := e0.angry / total,
            surprised := e0.surprised / total }
        else e0
      let pairs := [("happy", e1.happy), ("neutral", e1.neutral), ("sad", e1.sad),
                    ("angry", e1.angry), ("surprised", e1.surprised)]
      let dominant := pyArgmax ("happy", e1.happy)
        [("neutral", e1.neutral), ("sad", e1.sad),
         ("angry", e1.angry), ("surprised", e1.surprised)]
      .ok { sensor_type := "emotion"
            timestamp := env.now
            simulation_mode := some true
            scenario := some c.current_scenario.value
            values := pairs.map (fun p => (p.1, pyRound 3 p.2))
            labels := [("dominant_emotion", dominant)] }

/-- The dict returned by generate_sensor_data. -/
structure SensorDataBundle where
  camera : Reading
  microphone : Reading
  emotion : Reading
  timestamp : Nat
  scenario : String
deriving DecidableEq

/-- SimulationController.generate_sensor_data (209-229): updates the
dynamic phase first when in DYNAMIC mode, then builds the dict; any
exception from a generator propagates (there is no handler). -/
def SimulationController.generate_sensor_data (env : PyEnv)
    (c0 : SimulationController) : SimulationController × Except PyExc SensorDataBundle :=
  let c := if c0.current_scenario = .DYNAMIC then c0.update_dynamic_phase env else c0
  let out : Except PyExc SensorDataBundle :=
    match c.generate_camera_data env with
    | .error e => .error e
    | .ok cam =>
        match c.generate_microphone_data env with
        | .error e => .error e
        | .ok mic =>
            match c.generate_emotion_data env with
            | .error e => .error e
            | .ok emo =>
                .ok { camera := cam, microphone := mic, emotion := emo,
                      timestamp := env.now, scenario := c.current_scenario.value }
  (c, out)

/-- ManagerStatus enum (sensor_manager.py 39-46). -/
inductive ManagerStatus where
  | STOPPED
  | STARTING
  | RUNNING
  | STOPPING
  | ERROR
deriving DecidableEq

def ManagerStatus.value : ManagerStatus → String
  | .STOPPED => "stopped"
  | .STARTING => "starting"
  | .RUNNING => "running"
  | .STOPPING => "stopping"
  | .ERROR => "error"

/-- The three channels the orchestrator owns. -/
inductive Channel where
  | camera
  | microphone
  | air_quality
deriving DecidableEq

/-- A per-channel map (the `_retry_counts` / `_error_counts` /
`_last_read_time` dicts keyed by the three fixed names). -/
structure ChannelMap (α : Type) where
  camera : α
  microphone : α
  air_quality : α
deriving DecidableEq

def ChannelMap.get (m : ChannelMap α) : Channel → α
  | .camera => m.camera
  | .microphone => m.microphone
  | .air_quality => m.air_quality

def ChannelMap.set (m : ChannelMap α) : Channel → α → ChannelMap α
  | .camera, v => { m with camera := v }
  | .microphone, v => { m with microphone := v }
  | .air_quality, v => { m with air_quality := v }

/-- The hooks of a given channel in the environment. -/
def PyEnv.hooks (env : PyEnv) : Channel → Hooks
  | .camera => env.camera
  | .microphone => env.microphone
  | .air_quality => env.air_quality

/-- Mutable state of a SensorManager (sensor_manager.py 80-120).
SIMULATION_AVAILABLE is taken as true (the import succeeds whenever the
repository is intact), so a SimulationController is always present.  The
raw `self.config` dict is only re-read at construction time and is not
modeled.  `HEALTH_ERROR_PENALTY = 10` and `HEALTH_ERROR_MAX_PENALTY = 30`
appear inline in get_health below. -/
structure SensorManager where
  polling_interval : ℚ := 5
  auto_recover : Bool := true
  max_retries : Int := 3
  camera : Sensor := { name := "Camera Sensor", sensor_type := "camera" }
  microphone : Sensor := { name := "Microphone Sensor", sensor_type := "microphone" }
  air_quality : Sensor := { name := "MQ-135 Air Quality Sensor", sensor_type := "air_quality" }
  status : ManagerStatus := .STOPPED
  running : Bool := false
  polling_thread_alive : Bool := false
  start_time : Option Nat := none
  retry_counts : ChannelMap Nat := ⟨0, 0, 0⟩
  last_read_time : ChannelMap (Option Nat) := ⟨none, none, none⟩
  error_counts : ChannelMap Nat := ⟨0, 0, 0⟩
  simulation_controller : SimulationController := {}
  simulation_mode : Bool := false
deriving DecidableEq

def SensorManager.sensor (m : SensorManager) : Channel → Sensor
  | .camera => m.camera
  | .microphone => m.microphone
  | .air_quality => m.air_quality

def SensorManager.setSensor (m : SensorManager) : Channel → Sensor → SensorManager
  | .camera, s => { m with camera := s }
  | .microphone, s => { m with microphone := s }
  | .air_quality, s => { m with air_quality := s }

/-- The orchestrator state together with its single `threading.Lock`
(sensor_manager.py line 103) — a plain non-reentrant lock. -/
structure MState where
  lockHeld : Bool := false
  mgr : SensorManager
deriving DecidableEq

/-- Outcome of an operation on the locked orchestrator: a result, or a
deadlock — a `with self._lock` entered by a thread that already holds the
same non-reentrant lock blocks forever. -/
inductive LockOut (α : Type) where
  | ok (s : MState) (a : α)
  | deadlock
deriving DecidableEq

/-- `with self._lock: body`. -/
def withLock (body : MState → LockOut α) (s : MState) : LockOut α :=
  if s.lockHeld then .deadlock
  else
    match body { s with lockHeld := true } with
    | .ok s2 a => .ok { s2 with lockHeld := false } a
    | .deadlock => .deadlock

/-- Lift a lock-oblivious body into a locked operation. -/
def liftBody (f : SensorManager → SensorManager × α) : MState → LockOut α :=
  fun s =>
    let p := f s.mgr
    .ok { s with mgr := p.1 } p.2

/-- SensorManager._start_sensor (393-415): calls sensor.start(); success
resets the channel's retry count to 0; Sensor.start never raises, so the
`except` arm returning False is dead here. -/
def SensorManager.start_sensor (env : PyEnv) (ch : Channel)
    (m : SensorManager) : SensorManager × Bool :=
  let p := (m.sensor ch).start (env.hooks ch) env.now
  let m2 := m.setSensor ch p.1
  if p.2 then ({ m2 with retry_counts := m2.retry_counts.set ch 0 }, true)
  else (m2, false)

/-- SensorManager._stop_sensor (417-438). -/
def SensorManager.stop_sensor (env : PyEnv) (ch : Channel)
    (m : SensorManager) : SensorManager × Bool :=
  let p := (m.sensor ch).stop (env.hooks ch)
  (m.setSensor ch p.1, p.2)

/-- Body of SensorManager.start_all (122-159), run under the lock. -/
def SensorManager.start_all_body (env : PyEnv) (m : SensorManager) :
    SensorManager × Bool :=
  if m.running then (m, true)
  else
    let m := { m with status := ManagerStatus.STARTING }
    let pc := m.start_sensor env .camera
    let pm := pc.1.start_sensor env .microphone
    let pa := pm.1.start_sensor env .air_quality
    if ¬pc.2 ∧ ¬pm.2 ∧ ¬pa.2 then ({ pa.1 with status := ManagerStatus.ERROR }, false)
    else
      ({ pa.1 with running := true, polling_thread_alive := true,
                   status := ManagerStatus.RUNNING, start_time := some env.now }, true)

def SensorManager.start_all (env : PyEnv) : MState → LockOut Bool :=
  withLock (liftBody (SensorManager.start_all_body env))

/-- Body of SensorManager.stop_all (161-194), run under the lock: clears
the running flag, joins the polling thread, stops every sensor, marks
STOPPED and clears the start time. -/
def SensorManager.stop_all_body (env : PyEnv) (m : SensorManager) :
    SensorManager × Bool :=
  if ¬m.running then (m, true)
  else
    let m := { m with status := ManagerStatus.STOPPING, running := false,
                      polling_thread_alive := false }
    let pc := m.stop_sensor env .camera
    let pm := pc.1.stop_sensor env .microphone
    let pa := pm.1.stop_sensor env .air_quality
    ({ pa.1 with status := ManagerStatus.STOPPED, start_time := none }, true)

def SensorManager.stop_all (env : PyEnv) : MState → LockOut Bool :=
  withLock (liftBody (SensorManager.stop_all_body env))

/-- The ReadEnvelope a read_all call produces: the `data` map (one optional
entry per key that can occur), the `errors` map, and the extra keys the
simulation branch adds. -/
structure ReadEnvelope where
  timestamp : Nat
  data_camera : Option Reading := none
  data_microphone : Option Reading := none
  data_air_quality : Option Reading := none
  data_emotion : Option Reading := none
  err_camera : Option String := none
  err_microphone : Option String := none
  err_air_quality : Option String := none
  simulation_mode : Option Bool := none
  scenario : Option String := none
deriving DecidableEq

/-- The error-map entry a per-channel read outcome produces: absent on
success, `str(e)` on a raised exception. -/
def excMsgOf : Except PyExc Reading → Option String
  | .ok _ => none
  | .error e => some e.msg

/-- One `try: read / except` block of read_all (e.g. 276-285 for the
camera): on success store the reading, stamp last_read_time and reset the
error count; on failure record str(e) and increment the error count. -/
def SensorManager.read_one (env : PyEnv) (ch : Channel) (m : SensorManager) :
    SensorManager × Except PyExc Reading :=
  let p := (m.sensor ch).read (env.hooks ch)
  let m2 := m.setSensor ch p.1
  match p.2 with
  | .ok d =>
      ({ m2 with last_read_time := m2.last_read_time.set ch (some env.now),
                 error_counts := m2.error_counts.set ch 0 }, .ok d)
  | .error e =>
      ({ m2 with error_counts := m2.error_counts.set ch (m2.error_counts.get ch + 1) },
       .error e)

/-- Body of SensorManager.read_all (251-309), run under the lock.  The
simulation branch (260-272) calls generate_sensor_data with NO exception
handling, so anything it raises propagates to the caller; the live branch
wraps each channel read in try/except and always returns the envelope. -/
def SensorManager.read_all_body (env : PyEnv) (m : SensorManager) :
    SensorManager × Except PyExc ReadEnvelope :=
  if m.simulation_mode then
    let p := m.simulation_controller.generate_sensor_data env
    let m2 := { m with simulation_controller := p.1 }
    match p.2 with
    | .error e => (m2, .error e)
    | .ok d =>
        (m2, .ok { timestamp := d.timestamp
                   data_camera := some d.camera
                   data_microphone := some d.microphone
                   data_emotion := some d.emotion
                   simulation_mode := some true
                   scenario := some d.scenario })
  else
    let pc := m.read_one env .camera
    let pm := pc.1.read_one env .microphone
    let pa := pm.1.read_one env .air_quality
    (pa.1, .ok
      { timestamp := env.now
        data_camera := pc.2.toOption
        data_microphone := pm.2.toOption
        data_air_quality := pa.2.toOption
        err_camera := excMsgOf pc.2
        err_microphone := excMsgOf pm.2
        err_air_quality := excMsgOf pa.2 })

def SensorManager.read_all (env : PyEnv) : MState → LockOut (Except PyExc ReadEnvelope) :=
  withLock (liftBody (SensorManager.read_all_body env))

/-- The per-sensor entry assembled by get_all_status (216-247). -/
structure SensorEntry where
  report : SensorStatusReport
  error_count : Nat
  retry_count : Nat
deriving DecidableEq

def SensorManager.sensor_entry (now : Nat) (ch : Channel) (m : SensorManager) :
    SensorEntry :=
  { report := (m.sensor ch).get_status now
    error_count := m.error_counts.get ch
    retry_count := m.retry_counts.get ch }

/-- The dict returned by SensorManager.get_all_status (196-249). -/
structure AllStatus where
  manager_status : String
  running : Bool
  polling_interval : ℚ
  simulation_mode : Bool
  camera : SensorEntry
  microphone : SensorEntry
  air_quality : SensorEntry
deriving DecidableEq

def SensorManager.get_all_status (now : Nat) (m : SensorManager) : AllStatus :=
  { manager_status := m.status.value
    running := m.running
    polling_interval := m.polling_interval
    simulation_mode := m.simulation_mode
    camera := m.sensor_entry now .camera
    microphone := m.sensor_entry now .microphone
    air_quality := m.sensor_entry now .air_quality }

/-- The health payload of get_health (349-359). -/
structure HealthReport where
  health_score : Int
  status : String
  issues : List String
deriving DecidableEq

/-- The per-sensor deductions of get_health (330-345): −20 when the status
STRING reported by get_status (a lowercase enum `.value`) is not in the
list of UPPERCASE names, and −min(10·errors, 30) when error_count > 0. -/
def healthSensorDeduction (name : String) (st : String) (errs : Nat) :
    Int × List String :=
  let p1 : Int × List String :=
    if st ≠ "ACTIVE" ∧ st ≠ "MOCK_MODE" then (20, [name ++ " not active: " ++ st])
    else (0, [])
  let p2 : Int × List String :=
    if errs > 0 then
      (min (10 * (errs : Int)) 30, [name ++ " has " ++ toString errs ++ " errors"])
    else (0, [])
  (p1.1 + p2.1, p1.2 ++ p2.2)

/-- SensorManager.get_health (311-359). -/
def SensorManager.get_health (now : Nat) (m : SensorManager) : HealthReport :=
  let st := m.get_all_status now
  let p0 : Int × List String :=
    if m.status ≠ ManagerStatus.RUNNING
    then (50, ["Manager not running: " ++ m.status.value]) else (0, [])
  let pc := healthSensorDeduction "camera" st.camera.report.status st.camera.error_count
  let pm := healthSensorDeduction "microphone" st.microphone.report.status
    st.microphone.error_count
  let pa := healthSensorDeduction "air_quality" st.air_quality.report.status
    st.air_quality.error_count
  let score := max 0 (100 - p0.1 - pc.1 - pm.1 - pa.1)
  { health_score := score
    status :=
      if score ≥ 80 then "healthy" else if score ≥ 50 then "degraded" else "unhealthy"
    issues := p0.2 ++ pc.2 ++ pm.2 ++ pa.2 }

/-- A partial new_config dict for update_config: the recognized keys, each
optionally present with an arbitrary Python value. -/
structure ConfigDict where
  polling_interval : Option PyVal := none
  auto_recover : Option PyVal := none
  max_retries : Option PyVal := none
deriving DecidableEq

/-- Body of SensorManager.update_config (361-391), run under the lock: the
three assignments happen in order inside one `try`; an exception leaves the
earlier assignments in place and returns False.  (float() and int() raise
on non-numeric values; bool() is total.) -/
def SensorManager.update_config_body (cfg : ConfigDict) (m : SensorManager) :
    SensorManager × Bool :=
  let s1 : SensorManager × Option PyExc :=
    match cfg.polling_interval with
    | none => (m, none)
    | some v =>
        match pyFloat v with
        | .ok q => ({ m with polling_interval := q }, none)
        | .error e => (m, some e)
  match s1 with
  | (m1, some _) => (m1, false)
  | (m1, none) =>
      let m2 :=
        match cfg.auto_recover with
        | none => m1
        | some v => { m1 with auto_recover := pyBool v }
      match cfg.max_retries with
      | none => (m2, true)
      | some v =>
          match pyInt v with
          | .ok k => ({ m2 with max_retries := k }, true)
          | .error _ => (m2, false)

def SensorManager.update_config (cfg : ConfigDict) : MState → LockOut Bool :=
  withLock (liftBody (SensorManager.update_config_body cfg))

/-- SensorManager._should_recover (493-512): retry-budget check, then
membership of the status STRING reported by get_status — a lowercase enum
value — in the list of UPPERCASE names. -/
def SensorManager.should_recover (now : Nat) (ch : Channel) (m : SensorManager) :
    Bool :=
  if (m.retry_counts.get ch : Int) ≥ m.max_retries then false
  else
    let st := ((m.sensor ch).get_status now).status
    st == "ERROR" || st == "UNAVAILABLE"

/-- SensorManager._check_and_recover (467-491): examines the camera and the
microphone; the air_quality channel does not appear in this method.  A
recovery attempt that fails increments the channel's retry count. -/
def SensorManager.check_and_recover (env : PyEnv) (m : SensorManager) :
    SensorManager :=
  let m1 :=
    if m.should_recover env.now .camera then
      let p := m.start_sensor env .camera
      if p.2 then p.1
      else { p.1 with retry_counts :=
              p.1.retry_counts.set .camera (p.1.retry_counts.get .camera + 1) }
    else m
  if m1.should_recover env.now .microphone then
    let p := m1.start_sensor env .microphone
    if p.2 then p.1
    else { p.1 with retry_counts :=
            p.1.retry_counts.set .microphone (p.1.retry_counts.get .microphone + 1) }
  else m1

/-- SensorManager.start_simulation (525-566).  The whole body runs inside
`with self._lock`; when real sensors are running and simulation is not yet
active it calls self.stop_all(), whose own `with self._lock` is entered
while the lock is already held. -/
def SensorManager.start_simulation (env : PyEnv) (scenario : String) :
    MState → LockOut Bool :=
  withLock (fun s =>
    let step1 : LockOut Unit :=
      if s.mgr.running ∧ ¬s.mgr.simulation_mode then
        match SensorManager.stop_all env s with
        | .ok s2 _ => .ok s2 ()
        | .deadlock => .deadlock
      else .ok s ()
    match step1 with
    | .deadlock => .deadlock
    | .ok s1 _ =>
        let p := s1.mgr.simulation_controller.start scenario env.now
        let m := { s1.mgr with simulation_controller := p.1 }
        if p.2 then
          let m := { m with simulation_mode := true }
          let m :=
            if m.running then m
            else
              { m with status := ManagerStatus.RUNNING, running := true,
                       polling_thread_alive := true, start_time := some env.now }
          .ok { s1 with mgr := m } true
        else .ok { s1 with mgr := m } false)

/-- SensorManager.stop_simulation (568-589). -/
def SensorManager.stop_simulation (_env : PyEnv) : MState → LockOut Bool :=
  withLock (liftBody (fun m =>
    if ¬m.simulation_mode then (m, true)
    else
      let p := m.simulation_controller.stop
      ({ m with simulation_controller := p.1, simulation_mode := false }, true)))

/-! ### Derived predicates and concrete test fixtures -/

/-- Well-typed CUSTOM parameters: the two ranges are pairs and the three
emotion weights are numbers (their values unrestricted). -/
def PyVal.isPair : PyVal → Bool
  | .pair _ _ => true
  | _ => false

def PyVal.isNum : PyVal → Bool
  | .num _ => true
  | _ => false

def CustomParams.wellTyped (p : CustomParams) : Bool :=
  p.greenery_range.isPair && p.noise_range.isPair &&
  p.emotion_happy.isNum && p.emotion_neutral.isNum && p.emotion_sad.isNum

/-- The retry-count invariant the spec states for the orchestrator: each
channel's retry count lies between 0 and max_retries (counts are naturals,
so the lower bound is inherent in the model, exactly as in the code where
they are only ever set to 0 or incremented). -/
def retryInvariant (m : SensorManager) : Prop :=
  (m.retry_counts.camera : Int) ≤ m.max_retries ∧
  (m.retry_counts.microphone : Int) ≤ m.max_retries ∧
  (m.retry_counts.air_quality : Int) ≤ m.max_retries

instance (m : SensorManager) : Decidable (retryInvariant m) := by
  unfold retryInvariant; infer_instance

/-- Replace the real-capture hook of every channel, leaving everything else
of the environment intact: two environments related this way agree on
anything that never invokes `capture()`. -/
def PyEnv.withCapture (e : PyEnv) (c1 c2 c3 : Except PyExc Reading) : PyEnv :=
  { e with camera := { e.camera with capture := c1 }
           microphone := { e.microphone with capture := c2 }
           air_quality := { e.air_quality with capture := c3 } }

/-- Extract the envelope from a read_all outcome, when one was returned. -/
def envelopeOf : LockOut (Except PyExc ReadEnvelope) → Option ReadEnvelope
  | .ok _ (.ok envp) => some envp
  | _ => none

/-- A minimal reading literal for hook fixtures. -/
def readingSample : Reading := { sensor_type := "sample" }

/-- Hooks where every operation succeeds. -/
def hooksOk : Hooks :=
  { checkHw := .ok true, initHw := .ok true, capture := .ok readingSample,
    captureMock := .ok readingSample, cleanup := .ok true }

/-- Hooks whose cleanup reports failure (returns False). -/
def hooksCleanupFalse : Hooks := { hooksOk with cleanup := .ok false }

/-- Hooks where every operation raises. -/
def hooksAllExc : Hooks :=
  { checkHw := .error (.other "boom"), initHw := .error (.other "boom"),
    capture := .error (.sensorError "boom"),
    captureMock := .error (.sensorError "boom"),
    cleanup := .error (.other "boom") }

/-- A fixed environment for concrete evaluations. -/
def envDefault : PyEnv :=
  { now := 0, rand := fun _ => 0, sinq := fun _ => 0, piq := 314159 / 100000,
    camera := hooksOk, microphone := hooksOk, air_quality := hooksOk }

/-- A camera channel currently ACTIVE. -/
def sensorActiveSample : Sensor :=
  { name := "Camera Sensor", sensor_type := "camera",
    status := .ACTIVE, start_time := some 0 }

/-- A microphone channel currently in MOCK_MODE. -/
def sensorMockSample : Sensor :=
  { name := "Microphone Sensor", sensor_type := "microphone",
    status := .MOCK_MODE, mock_mode := true, start_time := some 0 }

/-- A manager RUNNING with all three channels ACTIVE and no errors. -/
def mgrRunningLive : SensorManager :=
  { status := .RUNNING, running := true, polling_thread_alive := true,
    start_time := some 0,
    camera := { name := "Camera Sensor", sensor_type := "camera",
                status := .ACTIVE, start_time := some 0 }
    microphone := { name := "Microphone Sensor", sensor_type := "microphone",
                    status := .ACTIVE, start_time := some 0 }
    air_quality := { name := "MQ-135 Air Quality Sensor", sensor_type := "air_quality",
                     status := .ACTIVE, start_time := some 0 } }

/-- The same manager with the camera in ERROR and an untouched retry budget. -/
def mgrCameraError : SensorManager :=
  { mgrRunningLive with
    camera := { name := "Camera Sensor", sensor_type := "camera",
                status := .ERROR, error_message := some "capture failed" } }

/-- A controller on CUSTOM whose accepted parameter dict maps
greenery_range to the number 5 (set_custom_parameters accepts anything). -/
def simCtrlBadCustom : SimulationController :=
  SimulationController.set_custom_parameters { greenery_range := some (PyVal.num 5) }
    { active := true, current_scenario := .CUSTOM, start_time := some 0 }

def mgrSimBadCustom : SensorManager :=
  { mgrRunningLive with simulation_mode := true,
                        simulation_controller := simCtrlBadCustom }

/-- Simulation active on the CALM scenario. -/
def simCtrlCalm : SimulationController :=
  { active := true, current_scenario := .CALM_FLOW, start_time := some 0 }

def mgrSimCalm : SensorManager :=
  { mgrRunningLive with simulation_mode := true,
                        simulation_controller := simCtrlCalm }

def stSimCalm : MState := { mgr := mgrSimCalm }

/-- The CUSTOM parameter dict of the claimed rejection examples:
greenery range (80, 20) and emotion weights happy 0.7, sad 0.5. -/
def c5Update : CustomParamsUpdate :=
  { greenery_range := some (PyVal.pair 80 20)
    emotion_happy := some (PyVal.num (7 / 10))
    emotion_sad := some (PyVal.num (1 / 2)) }

/-- The new_config dict setting max_retries to −1. -/
def cfgNegRetries : ConfigDict := { max_retries := some (PyVal.num (-1)) }

/-! ### Helper lemmas -/

/-- get_status reports the lowercase enum value, which is never one of the
uppercase names _should_recover looks for, so _should_recover is constantly
false — for every channel, every manager state and every clock value. -/
theorem should_recover_eq_false (now : Nat) (ch : Channel) (m : SensorManager) :
    SensorManager.should_recover now ch m = false := by
  unfold SensorManager.should_recover
  split
  · rfl
  · cases h : (m.sensor ch).status <;>
      simp [Sensor.get_status, SensorStatus.value, h]

/-- Consequently the recovery pass is the identity on the manager state. -/
theorem check_and_recover_eq_id (env : PyEnv) (m : SensorManager) :
    SensorManager.check_and_recover env m = m := by
  unfold SensorManager.check_and_recover
  simp [should_recover_eq_false]

/-- update_dynamic_phase only touches the phase bookkeeping. -/
theorem update_phase_preserves_scenario (env : PyEnv) (c : SimulationController) :
    (c.update_dynamic_phase env).current_scenario = c.current_scenario ∧
    (c.update_dynamic_phase env).custom_params = c.custom_params := by
  unfold SimulationController.update_dynamic_phase
  cases c.start_time <;> exact ⟨rfl, rfl⟩

/-- generate_camera_data returns a reading tagged simulated whenever the
scenario is not CUSTOM or the custom parameters are well-typed. -/
theorem generate_camera_ok (env : PyEnv) (c : SimulationController)
    (h : c.current_scenario ≠ SimulationScenario.CUSTOM ∨
         c.custom_params.wellTyped = true) :
    ∃ d, c.generate_camera_data env = .ok d ∧ d.simulation_mode = some true := by
  unfold SimulationController.generate_camera_data SimulationController.get_greenery_value
  cases hs : c.current_scenario
  case CALM_FLOW => exact ⟨_, rfl, rfl⟩
  case HIGH_STRESS => exact ⟨_, rfl, rfl⟩
  case DYNAMIC => exact ⟨_, rfl, rfl⟩
  case CUSTOM =>
    rcases h with h | h
    · exact absurd hs h
    · have h1 : c.custom_params.greenery_range.isPair = true := by
        unfold CustomParams.wellTyped at h
        simp only [Bool.and_eq_true] at h
        exact h.1.1.1.1
      cases hg : c.custom_params.greenery_range <;> rw [hg] at h1 <;>
        simp [PyVal.isPair] at h1
      simp only [hg, PyVal.unpair]
      exact ⟨_, rfl, rfl⟩

/-- generate_microphone_data, likewise. -/
theorem generate_microphone_ok (env : PyEnv) (c : SimulationController)
    (h : c.current_scenario ≠ SimulationScenario.CUSTOM ∨
         c.custom_params.wellTyped = true) :
    ∃ d, c.generate_microphone_data env = .ok d ∧ d.simulation_mode = some true := by
  unfold SimulationController.generate_microphone_data SimulationController.get_noise_value
  cases hs : c.current_scenario
  case CALM_FLOW => exact ⟨_, rfl, rfl⟩
  case HIGH_STRESS => exact ⟨_, rfl, rfl⟩
  case DYNAMIC => exact ⟨_, rfl, rfl⟩
  case CUSTOM =>
    rcases h with h | h
    · exact absurd hs h
    · have h1 : c.custom_params.noise_range.isPair = true := by
        unfold CustomParams.wellTyped at h
        simp only [Bool.and_eq_true] at h
        exact h.1.1.1.2
      cases hg : c.custom_params.noise_range <;> rw [hg] at h1 <;>
        simp [PyVal.isPair] at h1
      simp only [hg, PyVal.unpair]
      exact ⟨_, rfl, rfl⟩

/-- generate_emotion_data, likewise. -/
theorem generate_emotion_ok (env : PyEnv) (c : SimulationController)
    (h : c.current_scenario ≠ SimulationScenario.CUSTOM ∨
         c.custom_params.wellTyped = true) :
    ∃ d, c.generate_emotion_data env = .ok d ∧ d.simulation_mode = some true := by
  unfold SimulationController.generate_emotion_data SimulationController.get_emotion_values
  cases hs : c.current_scenario
  case CALM_FLOW => exact ⟨_, rfl, rfl⟩
  case HIGH_STRESS => exact ⟨_, rfl, rfl⟩
  case DYNAMIC => exact ⟨_, rfl, rfl⟩
  case CUSTOM =>
    rcases h with h | h
    · exact absurd hs h
    · unfold CustomParams.wellTyped at h
      simp only [Bool.and_eq_true] at h
      have h3 : c.custom_params.emotion_happy.isNum = true := h.1.1.2
      have h4 : c.custom_params.emotion_neutral.isNum = true := h.1.2
      have h5 : c.custom_params.emotion_sad.isNum = true := h.2
      cases hg3 : c.custom_params.emotion_happy <;> rw [hg3] at h3 <;>
        simp [PyVal.isNum] at h3
      cases hg4 : c.custom_params.emotion_neutral <;> rw [hg4] at h4 <;>
        simp [PyVal.isNum] at h4
      cases hg5 : c.custom_params.emotion_sad <;> rw [hg5] at h5 <;>
        simp [PyVal.isNum] at h5
      simp only [hg3, hg4, hg5, PyVal.asNum]
      exact ⟨_, rfl, rfl⟩

/-- generate_sensor_data produces a bundle of simulated-tagged readings
whenever the scenario is not CUSTOM or the custom parameters are
well-typed. -/
theorem generate_sensor_data_ok (env : PyEnv) (c : SimulationController)
    (h : c.current_scenario ≠ SimulationScenario.CUSTOM ∨
         c.custom_params.wellTyped = true) :
    ∃ d, (c.generate_sensor_data env).2 = .ok d ∧
      d.camera.simulation_mode = some true ∧
      d.microphone.simulation_mode = some true ∧
      d.emotion.simulation_mode = some true := by
  unfold SimulationController.generate_sensor_data
  by_cases hd : c.current_scenario = SimulationScenario.DYNAMIC
  all_goals
    simp only [hd, if_true, if_false, reduceIte]
  · have h2 : (c.update_dynamic_phase env).current_scenario ≠ SimulationScenario.CUSTOM ∨
        (c.update_dynamic_phase env).custom_params.wellTyped = true := by
      rw [(update_phase_preserves_scenario env c).1,
          (update_phase_preserves_scenario env c).2]
      exact h
    obtain ⟨cam, hcam, tcam⟩ := generate_camera_ok env _ h2
    obtain ⟨mic, hmic, tmic⟩ := generate_microphone_ok env _ h2
    obtain ⟨emo, hemo, temo⟩ := generate_emotion_ok env _ h2
    rw [hcam, hmic, hemo]
    exact ⟨_, rfl, tcam, tmic, temo⟩
  · obtain ⟨cam, hcam, tcam⟩ := generate_camera_ok env c h
    obtain ⟨mic, hmic, tmic⟩ := generate_microphone_ok env c h
    obtain ⟨emo, hemo, temo⟩ := generate_emotion_ok env c h
    rw [hcam, hmic, hemo]
    exact ⟨_, rfl, tcam, tmic, temo⟩

/-- The second component of read_one is the read outcome itself. -/
theorem read_one_snd (env : PyEnv) (ch : Channel) (m : SensorManager) :
    (m.read_one env ch).2 = ((m.sensor ch).read (env.hooks ch)).2 := by
  unfold SensorManager.read_one
  rcases hr : ((m.sensor ch).read (env.hooks ch)).2 with e | d <;> simp [hr]

/-- read_one on one channel leaves every other channel's sensor intact. -/
theorem read_one_other_sensor (env : PyEnv) (ch ch2 : Channel) (m : SensorManager)
    (h : ch ≠ ch2) :
    (m.read_one env ch).1.sensor ch2 = m.sensor ch2 := by
  unfold SensorManager.read_one
  rcases hr : ((m.sensor ch).read (env.hooks ch)).2 with e | d <;>
    simp only [hr] <;>
    cases ch <;> cases ch2 <;>
      first
        | exact absurd rfl h
        | rfl

/-- read_one touches neither the retry counts nor max_retries. -/
theorem read_one_retry (env : PyEnv) (ch : Channel) (m : SensorManager) :
    (m.read_one env ch).1.retry_counts = m.retry_counts ∧
    (m.read_one env ch).1.max_retries = m.max_retries := by
  unfold SensorManager.read_one
  rcases hr : ((m.sensor ch).read (env.hooks ch)).2 with e | d <;>
    simp only [hr] <;> cases ch <;> exact ⟨rfl, rfl⟩

/-- Inversion for withLock: an ok outcome means the lock was free and the
body ran on the locked state. -/
theorem withLock_ok_body (body : MState → LockOut α) (s st2 : MState) (a : α)
    (h : withLock body s = .ok st2 a) :
    ∃ s3, body { s with lockHeld := true } = .ok s3 a ∧
      st2 = { s3 with lockHeld := false } := by
  unfold withLock at h
  cases hl : s.lockHeld
  · rw [hl] at h
    simp only [Bool.false_eq_true, if_false, reduceIte] at h
    cases hb : body { s with lockHeld := true } with
    | ok s3 a2 =>
        rw [hb] at h
        injection h with h1 h2
        subst h2
        exact ⟨s3, rfl, h1.symm⟩
    | deadlock =>
        rw [hb] at h
        cases h
  · rw [hl] at h
    simp only [if_true, reduceIte] at h
    cases h

/-- For a liftBody operation, the resulting manager and value are those of
the body applied to the incoming manager. -/
theorem liftBody_ok (f : SensorManager → SensorManager × α) (s st2 : MState) (a : α)
    (h : withLock (liftBody f) s = .ok st2 a) :
    st2.mgr = (f s.mgr).1 ∧ a = (f s.mgr).2 := by
  obtain ⟨s3, hb, hst⟩ := withLock_ok_body _ s st2 a h
  unfold liftBody at hb
  injection hb with hb1 hb2
  subst hst
  exact ⟨by rw [← hb1], hb2.symm⟩

/-- setSensor leaves the retry bookkeeping alone. -/
theorem setSensor_counts (m : SensorManager) (ch : Channel) (s : Sensor) :
    (m.setSensor ch s).retry_counts = m.retry_counts ∧
    (m.setSensor ch s).max_retries = m.max_retries := by
  cases ch <;> exact ⟨rfl, rfl⟩

/-- The invariant only depends on the retry counts and max_retries. -/
theorem inv_congr (m m2 : SensorManager) (h1 : m2.retry_counts = m.retry_counts)
    (h2 : m2.max_retries = m.max_retries) (h : retryInvariant m) :
    retryInvariant m2 := by
  unfold retryInvariant at h ⊢
  rw [h1, h2]
  exact h

/-- Zeroing one channel's retry count keeps the invariant (the upper bound
is nonnegative because the incoming counts are). -/
theorem inv_set_zero (m m2 : SensorManager) (ch : Channel)
    (h1 : m2.retry_counts = m.retry_counts.set ch 0)
    (h2 : m2.max_retries = m.max_retries) (h : retryInvariant m) :
    retryInvariant m2 := by
  obtain ⟨ha, hb, hc⟩ := h
  have hmax : (0 : Int) ≤ m.max_retries := le_trans (Int.natCast_nonneg _) ha
  unfold retryInvariant
  rw [h1, h2]
  cases ch
  · exact ⟨by simpa using hmax, hb, hc⟩
  · exact ⟨ha, by simpa using hmax, hc⟩
  · exact ⟨ha, hb, by simpa using hmax⟩

/-- _start_sensor either leaves the retry counts alone (failed start) or
zeroes the started channel (successful start); max_retries is untouched. -/
theorem start_sensor_cases (env : PyEnv) (ch : Channel) (m : SensorManager) :
    ((m.start_sensor env ch).1.retry_counts = m.retry_counts ∨
     (m.start_sensor env ch).1.retry_counts = m.retry_counts.set ch 0) ∧
    (m.start_sensor env ch).1.max_retries = m.max_retries := by
  unfold SensorManager.start_sensor
  cases hb : ((m.sensor ch).start (env.hooks ch) env.now).2 <;>
    simp only [hb, Bool.false_eq_true, if_false, if_true, reduceIte]
  · exact ⟨Or.inl (setSensor_counts m ch _).1, (setSensor_counts m ch _).2⟩
  · constructor
    · right
      rw [(setSensor_counts m ch _).1]
    · rw [(setSensor_counts m ch _).2]

theorem start_sensor_inv (env : PyEnv) (ch : Channel) (m : SensorManager)
    (h : retryInvariant m) : retryInvariant (m.start_sensor env ch).1 := by
  obtain ⟨hcase, hmax⟩ := start_sensor_cases env ch m
  rcases hcase with hc | hc
  · exact inv_congr m _ hc hmax h
  · exact inv_set_zero m _ ch hc hmax h

/-- _start_sensor resets the started channel's retry count on success. -/
theorem start_sensor_resets (env : PyEnv) (ch : Channel) (m : SensorManager)
    (h : (m.start_sensor env ch).2 = true) :
    (m.start_sensor env ch).1.retry_counts.get ch = 0 := by
  unfold SensorManager.start_sensor at h ⊢
  cases hb : ((m.sensor ch).start (env.hooks ch) env.now).2
  · simp only [hb, Bool.false_eq_true, if_false, reduceIte] at h
  · simp only [hb, if_true, reduceIte]
    cases ch <;> rfl

/-- _stop_sensor leaves the retry bookkeeping alone. -/
theorem stop_sensor_retry (env : PyEnv) (ch : Channel) (m : SensorManager) :
    (m.stop_sensor env ch).1.retry_counts = m.retry_counts ∧
    (m.stop_sensor env ch).1.max_retries = m.max_retries := by
  unfold SensorManager.stop_sensor
  exact ⟨(setSensor_counts m ch _).1, (setSensor_counts m ch _).2⟩

theorem start_all_body_inv (env : PyEnv) (m : SensorManager)
    (h : retryInvariant m) : retryInvariant (m.start_all_body env).1 := by
  simp only [SensorManager.start_all_body]
  split
  · exact h
  · split
    · exact start_sensor_inv env .air_quality _
        (start_sensor_inv env .microphone _ (start_sensor_inv env .camera _ h))
    · exact start_sensor_inv env .air_quality _
        (start_sensor_inv env .microphone _ (start_sensor_inv env .camera _ h))

theorem stop_all_body_inv (env : PyEnv) (m : SensorManager)
    (h : retryInvariant m) : retryInvariant (m.stop_all_body env).1 := by
  simp only [SensorManager.stop_all_body]
  split
  · exact h
  · refine inv_congr m _ ?_ ?_ h
    · rw [(stop_sensor_retry env .air_quality _).1, (stop_sensor_retry env .microphone _).1,
          (stop_sensor_retry env .camera _).1]
    · rw [(stop_sensor_retry env .air_quality _).2, (stop_sensor_retry env .microphone _).2,
          (stop_sensor_retry env .camera _).2]

theorem read_all_body_inv (env : PyEnv) (m : SensorManager)
    (h : retryInvariant m) : retryInvariant (m.read_all_body env).1 := by
  simp only [SensorManager.read_all_body]
  split
  · rcases hg : (m.simulation_controller.generate_sensor_data env).2 with e | d <;>
      exact h
  · refine inv_congr m _ ?_ ?_ h
    · rw [(read_one_retry env .air_quality _).1, (read_one_retry env .microphone _).1,
          (read_one_retry env .camera _).1]
    · rw [(read_one_retry env .air_quality _).2, (read_one_retry env .microphone _).2,
          (read_one_retry env .camera _).2]

/-- update_config never touches the retry counts (it may change only
polling_interval, auto_recover and max_retries). -/
theorem update_config_body_retry (cfg : ConfigDict) (m : SensorManager) :
    (SensorManager.update_config_body cfg m).1.retry_counts = m.retry_counts := by
  unfold SensorManager.update_config_body
  rcases cfg with ⟨p, a, r⟩
  cases p with
  | none =>
      cases a <;> cases r <;>
        first
          | rfl
          | (rename_i v; cases v <;> rfl)
  | some v =>
      cases v <;> cases a <;> cases r <;>
        first
          | rfl
          | (rename_i v2; cases v2 <;> rfl)

/-- start_simulation preserves the retry bookkeeping on any non-deadlocked
run (it only touches the controller and the running/status fields). -/
theorem start_simulation_inv (env : PyEnv) (sc : String) (st st2 : MState) (b : Bool)
    (h : retryInvariant st.mgr)
    (heq : SensorManager.start_simulation env sc st = .ok st2 b) :
    retryInvariant st2.mgr := by
  unfold SensorManager.start_simulation at heq
  obtain ⟨s3, hb, hst⟩ := withLock_ok_body _ st st2 b heq
  dsimp only at hb
  split at hb
  · exact LockOut.noConfusion hb
  · rename_i s1 a heq2
    split at heq2
    · have hdead : SensorManager.stop_all env { lockHeld := true, mgr := st.mgr } =
          LockOut.deadlock := rfl
      rw [hdead] at heq2
      exact LockOut.noConfusion heq2
    · injection heq2 with hs1 ha
      subst hs1
      split at hb
      · split at hb
        · injection hb with h1 h2
          subst h1
          subst hst
          exact h
        · injection hb with h1 h2
          subst h1
          subst hst
          exact h
      · injection hb with h1 h2
        subst h1
        subst hst
        exact h

/-- stop_simulation preserves the retry bookkeeping. -/
theorem stop_simulation_inv (env : PyEnv) (st st2 : MState) (b : Bool)
    (h : retryInvariant st.mgr)
    (heq : SensorManager.stop_simulation env st = .ok st2 b) :
    retryInvariant st2.mgr := by
  unfold SensorManager.stop_simulation at heq
  obtain ⟨hm, -⟩ := liftBody_ok _ st st2 b heq
  rw [hm]
  dsimp only
  split
  · exact h
  · exact h

/-- C9: start() on an already-ACTIVE or already-MOCK channel returns true
and leaves the sensor — status and start timestamp included — unchanged,
for EVERY hook implementation, so in particular the hardware-init hook
(`initialize()`) is not invoked. -/
theorem start_idempotent_on_active_or_mock (h : Hooks) (now : Nat) (s : Sensor)
    (hs : s.status = SensorStatus.ACTIVE ∨ s.status = SensorStatus.MOCK_MODE) :
    Sensor.start h now s = (s, true) := by
  unfold Sensor.start
  rw [if_pos hs]

theorem start_idempotent_on_active_or_mock_witness :
    Sensor.start hooksAllExc 7 sensorActiveSample = (sensorActiveSample, true) :=
  start_idempotent_on_active_or_mock hooksAllExc 7 sensorActiveSample (Or.inl rfl)

/-- C10: with the hooks modeled as total functions that may report false or
raise, start() always returns true and lands in ACTIVE or MOCK_MODE: every
failure path falls back to mock, and the terminal ERROR branch (inside the
generic except arm, guarded by plain assignments that cannot raise) is
unreachable. -/
theorem start_always_true_and_active_or_mock (h : Hooks) (now : Nat) (s : Sensor) :
    (Sensor.start h now s).2 = true ∧
      ((Sensor.start h now s).1.status = SensorStatus.ACTIVE ∨
       (Sensor.start h now s).1.status = SensorStatus.MOCK_MODE) := by
  unfold Sensor.start Sensor.startExcept
  by_cases h1 : s.status = SensorStatus.ACTIVE ∨ s.status = SensorStatus.MOCK_MODE
  · rw [if_pos h1]
    exact ⟨rfl, h1⟩
  · rw [if_neg h1]
    by_cases h2 : s.mock_mode
    · simp [h2]
    · simp only [h2, Bool.false_eq_true, if_false]
      cases h.checkHw with
      | error e => cases e <;> simp
      | ok b =>
        cases b
        · simp
        · cases h.initHw with
          | error e => cases e <;> simp
          | ok b2 => cases b2 <;> simp

/-- C8 counterexample: a channel in ACTIVE whose cleanup() returns False
keeps status ACTIVE after stop() (the claim predicts a transition to
ERROR); stop() returns False with the sensor unchanged. -/
theorem stop_cleanup_false_leaves_status :
    Sensor.stop hooksCleanupFalse sensorActiveSample = (sensorActiveSample, false) ∧
    sensorActiveSample.status = SensorStatus.ACTIVE := ⟨rfl, rfl⟩

/-- C8 amended: from ACTIVE or MOCK, stop() calls cleanup(); True gives
INACTIVE (returning true), False leaves the status unchanged (returning
false), and only a RAISING cleanup() moves the status to ERROR with the
message recorded; stop() on an INACTIVE channel is a no-op returning true. -/
theorem stop_spec_amended (h : Hooks) (s : Sensor)
    (hs : s.status = SensorStatus.ACTIVE ∨ s.status = SensorStatus.MOCK_MODE) :
    (h.cleanup = .ok true →
       Sensor.stop h s = ({ s with status := .INACTIVE, start_time := none }, true)) ∧
    (h.cleanup = .ok false → Sensor.stop h s = (s, false)) ∧
    (∀ e, h.cleanup = .error e →
       Sensor.stop h s =
         ({ s with status := .ERROR, error_message := some e.msg }, false)) ∧
    (∀ s2 : Sensor, s2.status = SensorStatus.INACTIVE → Sensor.stop h s2 = (s2, true)) := by
  have hni : ¬ s.status = SensorStatus.INACTIVE := by
    rcases hs with hs | hs <;> rw [hs] <;> exact fun hc => by cases hc
  refine ⟨?_, ?_, ?_, ?_⟩
  · intro hc
    unfold Sensor.stop
    rw [if_neg hni, hc]
  · intro hc
    unfold Sensor.stop
    rw [if_neg hni, hc]
  · intro e hc
    unfold Sensor.stop
    rw [if_neg hni, hc]
  · intro s2 h2
    unfold Sensor.stop
    rw [if_pos h2]

theorem stop_spec_amended_witness :
    Sensor.stop hooksOk sensorMockSample =
      ({ sensorMockSample with status := SensorStatus.INACTIVE, start_time := none },
       true) :=
  (stop_spec_amended hooksOk sensorMockSample (Or.inr rfl)).1 rfl

/-- C1: start_simulation called while the real channels are running (and
simulation is not yet active) never returns: its body holds the manager's
single non-reentrant lock and calls stop_all, whose own `with self._lock`
blocks forever — the claimed stop-then-activate-then-return-true behavior
is unreachable. -/
theorem start_simulation_deadlocks_while_running :
    SensorManager.start_simulation envDefault "calm" { mgr := mgrRunningLive } =
      LockOut.deadlock := rfl

/-- C2: with the manager RUNNING and all three channels ACTIVE with zero
errors, get_health still applies the 20-point not-active deduction to every
channel (score 40, three not-active issues): get_status reports the
lowercase enum value "active" while get_health compares against the
uppercase names "ACTIVE"/"MOCK_MODE", so the deduction fires regardless of
channel status — the claimed exemption for ACTIVE/MOCK channels never
happens. -/
theorem get_health_penalizes_active_channels :
    (SensorManager.get_health 0 mgrRunningLive).health_score = 40 ∧
    (SensorManager.get_health 0 mgrRunningLive).issues =
      ["camera not active: active", "microphone not active: active",
       "air_quality not active: active"] := ⟨rfl, rfl⟩

/-- C6: a camera in ERROR with retry_count 0 below max_retries 3 receives
NO start() attempt from the recovery pass: _should_recover compares the
lowercase "error" from get_status against the uppercase names and returns
false, so the pass leaves the manager completely unchanged (and the
air_quality channel is not even examined by _check_and_recover). -/
theorem recovery_pass_never_attempts_start :
    SensorManager.should_recover 0 Channel.camera mgrCameraError = false ∧
    SensorManager.check_and_recover envDefault mgrCameraError = mgrCameraError ∧
    (mgrCameraError.retry_counts.get Channel.camera : Int) < mgrCameraError.max_retries ∧
    mgrCameraError.camera.status = SensorStatus.ERROR := by
  refine ⟨rfl, ?_, by decide, rfl⟩
  exact check_and_recover_eq_id envDefault mgrCameraError

/-- C5: no validation exists at any configuration boundary:
set_custom_parameters accepts the greenery range (80, 20) together with
emotion weights happy 0.7 and sad 0.5 (sum with the default neutral 0.3 is
1.5 > 1), and start("custom") then activates the CUSTOM scenario with those
parameters in force — nothing rejects them before activation.  (The
repository's own integration tests expect HTTP 400 from a
/api/simulation/custom-params endpoint that is absent from app.py.) -/
theorem custom_params_never_rejected :
    (SimulationController.start "custom" 0
       (SimulationController.set_custom_parameters c5Update {})).2 = true ∧
    (SimulationController.start "custom" 0
       (SimulationController.set_custom_parameters c5Update {})).1.active = true ∧
    (SimulationController.start "custom" 0
       (SimulationController.set_custom_parameters c5Update {})).1.current_scenario =
      SimulationScenario.CUSTOM ∧
    (SimulationController.start "custom" 0
       (SimulationController.set_custom_parameters c5Update {})).1.custom_params =
      { greenery_range := PyVal.pair 80 20
        emotion_happy := PyVal.num (7 / 10)
        emotion_sad := PyVal.num (1 / 2)
        noise_range := PyVal.pair 0 100
        emotion_neutral := PyVal.num (3 / 10) } :=
  ⟨rfl, rfl, rfl, rfl⟩

/-- C3 counterexample: set_custom_parameters accepts greenery_range = 5 (a
plain number, not a pair) without validation; with simulation active on the
CUSTOM scenario, read_all then raises the TypeError from unpacking it —
the simulation branch has no error capture, so the exception reaches the
caller instead of an error-map entry. -/
theorem read_all_raises_on_malformed_custom_params :
    SensorManager.read_all envDefault { mgr := mgrSimBadCustom } =
      LockOut.ok { mgr := mgrSimBadCustom }
        (Except.error (PyExc.typeError "cannot unpack non-sequence")) := rfl

/-- C3 amended: read_all never raises whenever simulation is inactive, or
the active scenario is not CUSTOM, or the accepted CUSTOM parameters are
well-typed; and in live mode each channel's error-map entry is exactly the
message of the exception that channel's read() raised (absent on success),
with the data entry present exactly on success, each channel read on its
own pre-call sensor state.  (Only a malformed previously-accepted CUSTOM
parameter set makes the simulation branch propagate an exception.) -/
theorem read_all_raise_characterization (env : PyEnv) (st : MState)
    (hl : st.lockHeld = false)
    (hok : st.mgr.simulation_mode = false ∨
           st.mgr.simulation_controller.current_scenario ≠ SimulationScenario.CUSTOM ∨
           st.mgr.simulation_controller.custom_params.wellTyped = true) :
    ∃ st2 envp,
      SensorManager.read_all env st = LockOut.ok st2 (Except.ok envp) ∧
      (st.mgr.simulation_mode = false →
        envp.err_camera =
          excMsgOf ((st.mgr.sensor Channel.camera).read (env.hooks Channel.camera)).2 ∧
        envp.err_microphone =
          excMsgOf ((st.mgr.sensor Channel.microphone).read (env.hooks Channel.microphone)).2 ∧
        envp.err_air_quality =
          excMsgOf ((st.mgr.sensor Channel.air_quality).read (env.hooks Channel.air_quality)).2 ∧
        envp.data_camera =
          Except.toOption ((st.mgr.sensor Channel.camera).read (env.hooks Channel.camera)).2 ∧
        envp.data_microphone =
          Except.toOption ((st.mgr.sensor Channel.microphone).read (env.hooks Channel.microphone)).2 ∧
        envp.data_air_quality =
          Except.toOption ((st.mgr.sensor Channel.air_quality).read (env.hooks Channel.air_quality)).2) := by
  have hmain : ∃ m2 envp,
      SensorManager.read_all_body env st.mgr = (m2, Except.ok envp) ∧
      (st.mgr.simulation_mode = false →
        envp.err_camera =
          excMsgOf ((st.mgr.sensor Channel.camera).read (env.hooks Channel.camera)).2 ∧
        envp.err_microphone =
          excMsgOf ((st.mgr.sensor Channel.microphone).read (env.hooks Channel.microphone)).2 ∧
        envp.err_air_quality =
          excMsgOf ((st.mgr.sensor Channel.air_quality).read (env.hooks Channel.air_quality)).2 ∧
        envp.data_camera =
          Except.toOption ((st.mgr.sensor Channel.camera).read (env.hooks Channel.camera)).2 ∧
        envp.data_microphone =
          Except.toOption ((st.mgr.sensor Channel.microphone).read (env.hooks Channel.microphone)).2 ∧
        envp.data_air_quality =
          Except.toOption ((st.mgr.sensor Channel.air_quality).read (env.hooks Channel.air_quality)).2) := by
    cases hsim : st.mgr.simulation_mode with
    | true =>
        have hgen : st.mgr.simulation_controller.current_scenario ≠
              SimulationScenario.CUSTOM ∨
            st.mgr.simulation_controller.custom_params.wellTyped = true := by
          rcases hok with hok | hok
          · rw [hsim] at hok; cases hok
          · exact hok
        obtain ⟨d, hd, -, -, -⟩ :=
          generate_sensor_data_ok env st.mgr.simulation_controller hgen
        unfold SensorManager.read_all_body
        simp only [hsim, if_true, reduceIte, hd]
        refine ⟨_, _, rfl, ?_⟩
        intro hfalse
        exact absurd hfalse (by decide)
    | false =>
        unfold SensorManager.read_all_body
        simp only [hsim, Bool.false_eq_true, if_false, reduceIte]
        refine ⟨_, _, rfl, ?_⟩
        intro _
        have hm : ((st.mgr.read_one env Channel.camera).1.read_one env
            Channel.microphone).2 =
            ((st.mgr.sensor Channel.microphone).read (env.hooks Channel.microphone)).2 := by
          rw [read_one_snd, read_one_other_sensor]
          exact fun hc => by cases hc
        have ha : (((st.mgr.read_one env Channel.camera).1.read_one env
            Channel.microphone).1.read_one env Channel.air_quality).2 =
            ((st.mgr.sensor Channel.air_quality).read (env.hooks Channel.air_quality)).2 := by
          rw [read_one_snd, read_one_other_sensor, read_one_other_sensor]
          · exact fun hc => by cases hc
          · exact fun hc => by cases hc
        refine ⟨?_, ?_, ?_, ?_, ?_, ?_⟩
        · rw [read_one_snd]
        · rw [hm]
        · rw [ha]
        · rw [read_one_snd]
        · rw [hm]
        · rw [ha]
  obtain ⟨m2, envp, hB, hcl⟩ := hmain
  unfold SensorManager.read_all withLock liftBody
  simp only [hl, Bool.false_eq_true, if_false, reduceIte, hB]
  exact ⟨_, envp, rfl, hcl⟩

theorem read_all_raise_characterization_witness :
    ∃ st2 envp,
      SensorManager.read_all envDefault { lockHeld := false, mgr := mgrRunningLive } =
        LockOut.ok st2 (Except.ok envp) ∧
      (mgrRunningLive.simulation_mode = false →
        envp.err_camera =
          excMsgOf ((mgrRunningLive.sensor Channel.camera).read
            (envDefault.hooks Channel.camera)).2 ∧
        envp.err_microphone =
          excMsgOf ((mgrRunningLive.sensor Channel.microphone).read
            (envDefault.hooks Channel.microphone)).2 ∧
        envp.err_air_quality =
          excMsgOf ((mgrRunningLive.sensor Channel.air_quality).read
            (envDefault.hooks Channel.air_quality)).2 ∧
        envp.data_camera =
          Except.toOption ((mgrRunningLive.sensor Channel.camera).read
            (envDefault.hooks Channel.camera)).2 ∧
        envp.data_microphone =
          Except.toOption ((mgrRunningLive.sensor Channel.microphone).read
            (envDefault.hooks Channel.microphone)).2 ∧
        envp.data_air_quality =
          Except.toOption ((mgrRunningLive.sensor Channel.air_quality).read
            (envDefault.hooks Channel.air_quality)).2) :=
  read_all_raise_characterization envDefault { lockHeld := false, mgr := mgrRunningLive }
    rfl (Or.inl rfl)

/-- C4 counterexample: with simulation active (CALM scenario), read_all
produces an envelope whose air_quality data entry is ABSENT — the
simulation branch only fills camera, microphone and emotion, so the claimed
Scenario-Generator reading for the air_quality channel does not exist. -/
theorem sim_envelope_omits_air_quality :
    Option.map ReadEnvelope.data_air_quality
      (envelopeOf (SensorManager.read_all envDefault stSimCalm)) = some none := rfl

/-- C4 amended: while simulation is active, any envelope a read_all call
returns carries Scenario-Generator readings for camera, microphone and
emotion — each tagged simulated — but NONE for air_quality; the three real
sensors are untouched, and the whole call is independent of every
channel's real-capture hook (capture() is never invoked). -/
theorem sim_envelope_channels_and_tags (env : PyEnv) (st : MState)
    (hl : st.lockHeld = false) (hs : st.mgr.simulation_mode = true) :
    (∀ st2 envp,
        SensorManager.read_all env st = LockOut.ok st2 (Except.ok envp) →
        envp.data_air_quality = none ∧
        (∃ d, envp.data_camera = some d ∧ d.simulation_mode = some true) ∧
        (∃ d, envp.data_microphone = some d ∧ d.simulation_mode = some true) ∧
        (∃ d, envp.data_emotion = some d ∧ d.simulation_mode = some true) ∧
        envp.simulation_mode = some true ∧
        st2.mgr.camera = st.mgr.camera ∧
        st2.mgr.microphone = st.mgr.microphone ∧
        st2.mgr.air_quality = st.mgr.air_quality) ∧
    (∀ c1 c2 c3,
        SensorManager.read_all (env.withCapture c1 c2 c3) st =
          SensorManager.read_all env st) := by
  constructor
  · intro st2 envp heq
    unfold SensorManager.read_all withLock liftBody SensorManager.read_all_body at heq
    simp only [hl, Bool.false_eq_true, if_false, reduceIte, hs, if_true] at heq
    rcases hg : (st.mgr.simulation_controller.generate_sensor_data env).2 with e | d
    · rw [hg] at heq
      cases heq
    · rw [hg] at heq
      injection heq with h1 h2
      injection h2 with h3
      subst h1
      subst h3
      have htags : d.camera.simulation_mode = some true ∧
          d.microphone.simulation_mode = some true ∧
          d.emotion.simulation_mode = some true := by
        unfold SimulationController.generate_sensor_data at hg
        by_cases hd : st.mgr.simulation_controller.current_scenario =
            SimulationScenario.DYNAMIC
        all_goals simp only [hd, if_true, if_false, reduceIte] at hg
        · rcases hc : ((st.mgr.simulation_controller.update_dynamic_phase
              env).generate_camera_data env) with e | cam
          all_goals rw [hc] at hg
          · cases hg
          · rcases hmc : ((st.mgr.simulation_controller.update_dynamic_phase
                env).generate_microphone_data env) with e | mic
            all_goals rw [hmc] at hg
            · cases hg
            · rcases hec : ((st.mgr.simulation_controller.update_dynamic_phase
                  env).generate_emotion_data env) with e | emo
              all_goals rw [hec] at hg
              · cases hg
              · cases hg
                refine ⟨?_, ?_, ?_⟩
                · unfold SimulationController.generate_camera_data at hc
                  rcases hx : ((st.mgr.simulation_controller.update_dynamic_phase
                      env).get_greenery_value env 0) with e | g
                  all_goals rw [hx] at hc
                  · cases hc
                  · cases hc; rfl
                · unfold SimulationController.generate_microphone_data at hmc
                  rcases hx : ((st.mgr.simulation_controller.update_dynamic_phase
                      env).get_noise_value env 2) with e | g
                  all_goals rw [hx] at hmc
                  · cases hmc
                  · cases hmc; rfl
                · unfold SimulationController.generate_emotion_data at hec
                  rcases hx : ((st.mgr.simulation_controller.update_dynamic_phase
                      env).get_emotion_values env 4) with e | g
                  all_goals rw [hx] at hec
                  · cases hec
                  · cases hec; rfl
        · rcases hc : (st.mgr.simulation_controller.generate_camera_data env)
              with e | cam
          all_goals rw [hc] at hg
          · cases hg
          · rcases hmc : (st.mgr.simulation_controller.generate_microphone_data env)
                with e | mic
            all_goals rw [hmc] at hg
            · cases hg
            · rcases hec : (st.mgr.simulation_controller.generate_emotion_data env)
                  with e | emo
              all_goals rw [hec] at hg
              · cases hg
              · cases hg
                refine ⟨?_, ?_, ?_⟩
                · unfold SimulationController.generate_camera_data at hc
                  rcases hx : (st.mgr.simulation_controller.get_greenery_value env 0)
                      with e | g
                  all_goals rw [hx] at hc
                  · cases hc
                  · cases hc; rfl
                · unfold SimulationController.generate_microphone_data at hmc
                  rcases hx : (st.mgr.simulation_controller.get_noise_value env 2)
                      with e | g
                  all_goals rw [hx] at hmc
                  · cases hmc
                  · cases hmc; rfl
                · unfold SimulationController.generate_emotion_data at hec
                  rcases hx : (st.mgr.simulation_controller.get_emotion_values env 4)
                      with e | g
                  all_goals rw [hx] at hec
                  · cases hec
                  · cases hec; rfl
      exact ⟨rfl, ⟨d.camera, rfl, htags.1⟩, ⟨d.microphone, rfl, htags.2.1⟩,
        ⟨d.emotion, rfl, htags.2.2⟩, rfl, rfl, rfl, rfl⟩
  · intro c1 c2 c3
    have hgen : ∀ c : SimulationController,
        c.generate_sensor_data (env.withCapture c1 c2 c3) =
          c.generate_sensor_data env := fun c => rfl
    unfold SensorManager.read_all withLock liftBody SensorManager.read_all_body
    simp only [hl, Bool.false_eq_true, if_false, reduceIte, hs, if_true, hgen]

theorem sim_envelope_channels_and_tags_witness :
    (∀ st2 envp,
        SensorManager.read_all envDefault stSimCalm = LockOut.ok st2 (Except.ok envp) →
        envp.data_air_quality = none ∧
        (∃ d, envp.data_camera = some d ∧ d.simulation_mode = some true) ∧
        (∃ d, envp.data_microphone = some d ∧ d.simulation_mode = some true) ∧
        (∃ d, envp.data_emotion = some d ∧ d.simulation_mode = some true) ∧
        envp.simulation_mode = some true ∧
        st2.mgr.camera = stSimCalm.mgr.camera ∧
        st2.mgr.microphone = stSimCalm.mgr.microphone ∧
        st2.mgr.air_quality = stSimCalm.mgr.air_quality) ∧
    (∀ c1 c2 c3,
        SensorManager.read_all (envDefault.withCapture c1 c2 c3) stSimCalm =
          SensorManager.read_all envDefault stSimCalm) :=
  sim_envelope_channels_and_tags envDefault stSimCalm rfl rfl

/-- C7 counterexample: from a state satisfying the retry invariant,
updateConfig with max_retries = −1 succeeds (returning true) and leaves a
state violating retry_count ≤ max_retries — the operation does not preserve
the claimed invariant. -/
theorem update_config_breaks_retry_bound :
    retryInvariant mgrRunningLive ∧
    SensorManager.update_config cfgNegRetries { mgr := mgrRunningLive } =
      LockOut.ok { mgr := { mgrRunningLive with max_retries := -1 } } true ∧
    ¬ retryInvariant { mgrRunningLive with max_retries := -1 } := by
  refine ⟨by decide, rfl, by decide⟩

/-- C7 amended: startAll, stopAll, readAll, the recovery pass,
startSimulation and stopSimulation all preserve 0 ≤ retry_count ≤
max_retries; a successful _start_sensor resets the started channel's count
to 0; updateConfig never changes any retry_count — but it can move
max_retries below a current count (see the counterexample), which is the
one way the claimed bound breaks. -/
theorem retry_invariant_preserved_elsewhere (env : PyEnv) (st : MState)
    (hinv : retryInvariant st.mgr) :
    (∀ st2 b, SensorManager.start_all env st = LockOut.ok st2 b →
        retryInvariant st2.mgr) ∧
    (∀ st2 b, SensorManager.stop_all env st = LockOut.ok st2 b →
        retryInvariant st2.mgr) ∧
    (∀ st2 r, SensorManager.read_all env st = LockOut.ok st2 r →
        retryInvariant st2.mgr) ∧
    retryInvariant (SensorManager.check_and_recover env st.mgr) ∧
    (∀ sc st2 b, SensorManager.start_simulation env sc st = LockOut.ok st2 b →
        retryInvariant st2.mgr) ∧
    (∀ st2 b, SensorManager.stop_simulation env st = LockOut.ok st2 b →
        retryInvariant st2.mgr) ∧
    (∀ cfg, (SensorManager.update_config_body cfg st.mgr).1.retry_counts =
        st.mgr.retry_counts) ∧
    (∀ ch, (st.mgr.start_sensor env ch).2 = true →
        (st.mgr.start_sensor env ch).1.retry_counts.get ch = 0) := by
  refine ⟨?_, ?_, ?_, ?_, ?_, ?_, ?_, ?_⟩
  · intro st2 b heq
    unfold SensorManager.start_all at heq
    obtain ⟨hm, -⟩ := liftBody_ok _ st st2 b heq
    rw [hm]
    exact start_all_body_inv env st.mgr hinv
  · intro st2 b heq
    unfold SensorManager.stop_all at heq
    obtain ⟨hm, -⟩ := liftBody_ok _ st st2 b heq
    rw [hm]
    exact stop_all_body_inv env st.mgr hinv
  · intro st2 r heq
    unfold SensorManager.read_all at heq
    obtain ⟨hm, -⟩ := liftBody_ok _ st st2 r heq
    rw [hm]
    exact read_all_body_inv env st.mgr hinv
  · rw [check_and_recover_eq_id]
    exact hinv
  · intro sc st2 b heq
    exact start_simulation_inv env sc st st2 b hinv heq
  · intro st2 b heq
    exact stop_simulation_inv env st st2 b hinv heq
  · intro cfg
    exact update_config_body_retry cfg st.mgr
  · intro ch hok2
    exact start_sensor_resets env ch st.mgr hok2

theorem retry_invariant_preserved_elsewhere_witness :
    retryInvariant (SensorManager.check_and_recover envDefault mgrRunningLive) :=
  (retry_invariant_preserved_elsewhere envDefault { mgr := mgrRunningLive }
    (by decide)).2.2.2.1

end CVMindcare
